import Mathlib

/-!
Shallow embedding of the phone-verification and account-resolution workflow
of src/main.py (a FastAPI application).

The session is the dictionary managed by the session middleware, holding the
three keys used by the routes: pending_user, signin_phone and user.  External
collaborators (the Twilio verify gateway and the Supabase store) are modelled
by passing their observed responses as explicit arguments, and the Supabase
store itself as an explicit database value threaded through the handlers that
write to it.  Session mutations made before an HTTPException is raised persist,
because the session middleware wraps the exception handler; the embedding
therefore always returns the final session alongside the response.
-/

/-- The pending_user session value saved by post_signup: a dictionary with
name and phone. -/
structure PendingUser where
  name : String
  phone : String
deriving Repr, DecidableEq

/-- The user session value: id, name and phone, as built by post_verify and
post_signin_verify. -/
structure UserSession where
  id : String
  name : String
  phone : String
deriving Repr, DecidableEq

/-- The per-visitor session dictionary, restricted to the three keys the
routes read and write. -/
structure Session where
  pending_user : Option PendingUser
  signin_phone : Option String
  user : Option UserSession
deriving Repr, DecidableEq

/-- An auth account record as created by supabase.auth.admin.create_user with
phone, phone_confirm and user_metadata name. -/
structure Account where
  id : String
  phone : String
  phone_confirm : Bool
  name : String
deriving Repr, DecidableEq

/-- A row of the profiles table: id, name, phone (created_at omitted, it is a
server-side timestamp). -/
structure Profile where
  id : String
  name : String
  phone : String
deriving Repr, DecidableEq

/-- The external Supabase store: auth accounts and the profiles table. -/
structure DB where
  accounts : List Account
  profiles : List Profile
deriving Repr, DecidableEq

/-- The response a handler produces: a redirect, a rendered template (with the
context value the route passes to it), or an HTTPException with status code
and detail. -/
inductive Response where
  | redirect (url : String) (code : Nat)
  | renderHome (user : Option UserSession)
  | renderVerify (phone : String)
  | renderSigninVerify (phone : String)
  | error (code : Nat) (detail : String)
deriving Repr, DecidableEq

/-- The send status check of post_signup and post_signin: the status field of
the Twilio send response (absent key modelled as none) must be pending or
approved. -/
def status_accepted (st : Option String) : Bool :=
  st == some "pending" || st == some "approved"

/-- The outcomes of the external calls made by post_verify: the status of the
Twilio VerificationCheck response, the usable id of the created auth user
(none when the create_user response is falsy or has no user), and the error
reported by the profiles insert (none when the insert succeeds). -/
structure VerifyEnv where
  check_status : Option String
  auth_user_id : Option String
  profile_error : Option String
deriving Repr, DecidableEq

/-- GET / : render home with the session user (or none). -/
def home (s : Session) : Session × Response :=
  (s, Response.renderHome s.user)

/-- POST /signup : save pending_user in the session, then send the OTP; a send
status outside pending and approved raises a 500, otherwise redirect to
the verify page with status 302.  The pending_user write happens before the
send-status check. -/
def post_signup (s : Session) (name phone : String) (send_status : Option String) :
    Session × Response :=
  let s1 : Session := { s with pending_user := some ⟨name, phone⟩ }
  if status_accepted send_status then
    (s1, Response.redirect "/verify" 302)
  else
    (s1, Response.error 500 "Failed to send OTP")

/-- GET /verify : with no pending_user redirect to /signup (RedirectResponse
default status 307), otherwise render the verify form with the pending
phone. -/
def get_verify (s : Session) : Session × Response :=
  match s.pending_user with
  | none => (s, Response.redirect "/signup" 307)
  | some p => (s, Response.renderVerify p.phone)

/-- POST /verify : check the pending_user precondition, verify the OTP, create
the auth user, insert the profile row, then set the session user, drop
pending_user and redirect home.  Any Supabase failure is converted to a 500
whose detail wraps the underlying message. -/
def post_verify (s : Session) (db : DB) (env : VerifyEnv) :
    Session × DB × Response :=
  match s.pending_user with
  | none => (s, db, Response.error 400 "No pending user found. Please sign up first.")
  | some pending =>
    if env.check_status ≠ some "approved" then
      (s, db, Response.error 400 "OTP verification failed. Please try again.")
    else
      match env.auth_user_id with
      | none =>
        (s, db, Response.error 500
          "Error creating user in Supabase: Supabase user creation response was invalid.")
      | some user_id =>
        let db1 : DB :=
          { db with accounts := db.accounts ++ [⟨user_id, pending.phone, true, pending.name⟩] }
        match env.profile_error with
        | some err =>
          (s, db1, Response.error 500
            ("Error creating user in Supabase: Failed to create user profile: " ++ err))
        | none =>
          let db2 : DB :=
            { db1 with profiles := db1.profiles ++ [⟨user_id, pending.name, pending.phone⟩] }
          ({ s with user := some ⟨user_id, pending.name, pending.phone⟩, pending_user := none },
           db2, Response.redirect "/" 302)

/-- GET /signout : pop the user key and redirect home with status 302. -/
def signout (s : Session) : Session × Response :=
  ({ s with user := none }, Response.redirect "/" 302)

/-- POST /signin : save signin_phone in the session, then send the OTP.  The
500 raised on a rejected send is itself caught by the blanket except clause
and re-raised as a 500 with detail Error during sign-in.  The signin_phone
write happens before the send-status check. -/
def post_signin (s : Session) (phone : String) (send_status : Option String) :
    Session × Response :=
  let s1 : Session := { s with signin_phone := some phone }
  if status_accepted send_status then
    (s1, Response.redirect "/signin/verify" 302)
  else
    (s1, Response.error 500 "Error during sign-in")

/-- GET /signin/verify : with no signin_phone (absent, or the empty string,
which is falsy in the source) redirect to /signin (default status 307),
otherwise render the signin verify form. -/
def get_signin_verify (s : Session) : Session × Response :=
  match s.signin_phone with
  | none => (s, Response.redirect "/signin" 307)
  | some phone =>
    if phone = "" then (s, Response.redirect "/signin" 307)
    else (s, Response.renderSigninVerify phone)

/-- POST /signin/verify : check the signin_phone precondition (the empty
string is falsy and also fails it), verify the OTP, select the profiles rows
matching the phone, and on a nonempty result take the first row, set the
session user from its fields, drop signin_phone and redirect home.  An empty
result is a 404. -/
def post_signin_verify (s : Session) (db : DB) (check_status : Option String) :
    Session × Response :=
  match s.signin_phone with
  | none => (s, Response.error 400 "No phone number found. Please sign in first.")
  | some phone =>
    if phone = "" then
      (s, Response.error 400 "No phone number found. Please sign in first.")
    else if check_status ≠ some "approved" then
      (s, Response.error 400 "OTP verification failed. Please try again.")
    else
      match db.profiles.filter (fun p => p.phone == phone) with
      | [] => (s, Response.error 404 "No user found with this phone number")
      | prof :: _ =>
        ({ s with user := some ⟨prof.id, prof.name, prof.phone⟩, signin_phone := none },
         Response.redirect "/" 302)

/-- C1: on either verification workflow, an OTP check status other than
approved leaves the session user untouched (no transition to authenticated)
and the request fails with the verification-failed 400 error whenever the
corresponding pending state was present so that the check ran at all. -/
theorem C1_otp_not_approved_never_authenticates
    (s : Session) (db : DB) (env : VerifyEnv) (st : Option String)
    (hv : env.check_status ≠ some "approved") (hs : st ≠ some "approved") :
    ((post_verify s db env).1.user = s.user ∧
      (s.pending_user.isSome →
        (post_verify s db env).2.2 =
          Response.error 400 "OTP verification failed. Please try again.")) ∧
    ((post_signin_verify s db st).1.user = s.user ∧
      (∀ ph, s.signin_phone = some ph → ph ≠ "" →
        (post_signin_verify s db st).2 =
          Response.error 400 "OTP verification failed. Please try again.")) := by
  constructor
  · cases h : s.pending_user with
    | none => simp [post_verify, h]
    | some p => simp [post_verify, h, hv]
  · cases h : s.signin_phone with
    | none => simp [post_signin_verify, h]
    | some ph =>
      by_cases hph : ph = ""
      · simp [post_signin_verify, h, hph]
      · simp [post_signin_verify, h, hph, hs]

/-- C1 witness at a concrete input. -/
theorem C1_otp_not_approved_never_authenticates_witness :
    ((post_verify ⟨some ⟨"Ada", "+15551234567"⟩, none, none⟩ ⟨[], []⟩
        ⟨some "failed", some "u1", none⟩).1.user = none ∧
      ((⟨some ⟨"Ada", "+15551234567"⟩, none, none⟩ : Session).pending_user.isSome →
        (post_verify ⟨some ⟨"Ada", "+15551234567"⟩, none, none⟩ ⟨[], []⟩
          ⟨some "failed", some "u1", none⟩).2.2 =
          Response.error 400 "OTP verification failed. Please try again.")) ∧
    ((post_signin_verify ⟨some ⟨"Ada", "+15551234567"⟩, none, none⟩ ⟨[], []⟩
        (some "failed")).1.user = none ∧
      (∀ ph, (⟨some ⟨"Ada", "+15551234567"⟩, none, none⟩ : Session).signin_phone = some ph →
        ph ≠ "" →
        (post_signin_verify ⟨some ⟨"Ada", "+15551234567"⟩, none, none⟩ ⟨[], []⟩
          (some "failed")).2 =
          Response.error 400 "OTP verification failed. Please try again.")) :=
  C1_otp_not_approved_never_authenticates
    ⟨some ⟨"Ada", "+15551234567"⟩, none, none⟩ ⟨[], []⟩
    ⟨some "failed", some "u1", none⟩ (some "failed") (by decide) (by decide)

/-- C2: with a pending signup, an approved OTP check, a usable created-account
id and a clean profile insert, post_verify appends exactly one account and one
profile row whose phone is the pending phone, sets the session user to the
created id with the pending name and phone, drops pending_user and redirects
to / with 302. -/
theorem C2_signup_verify_success
    (s : Session) (db : DB) (env : VerifyEnv) (pu : PendingUser) (uid : String)
    (hp : s.pending_user = some pu)
    (hv : env.check_status = some "approved")
    (ha : env.auth_user_id = some uid)
    (he : env.profile_error = none) :
    (post_verify s db env).2.1.accounts =
        db.accounts ++ [⟨uid, pu.phone, true, pu.name⟩] ∧
    (post_verify s db env).2.1.profiles =
        db.profiles ++ [⟨uid, pu.name, pu.phone⟩] ∧
    (⟨uid, pu.name, pu.phone⟩ : Profile).phone = pu.phone ∧
    (post_verify s db env).1.user = some ⟨uid, pu.name, pu.phone⟩ ∧
    (post_verify s db env).1.pending_user = none ∧
    (post_verify s db env).2.2 = Response.redirect "/" 302 := by
  simp [post_verify, hp, hv, ha, he]

/-- C2 witness at a concrete input. -/
theorem C2_signup_verify_success_witness :
    (post_verify ⟨some ⟨"Ada", "+15551234567"⟩, none, none⟩ ⟨[], []⟩
        ⟨some "approved", some "u1", none⟩).2.1.accounts =
        [] ++ [⟨"u1", "+15551234567", true, "Ada"⟩] ∧
    (post_verify ⟨some ⟨"Ada", "+15551234567"⟩, none, none⟩ ⟨[], []⟩
        ⟨some "approved", some "u1", none⟩).2.1.profiles =
        [] ++ [⟨"u1", "Ada", "+15551234567"⟩] ∧
    (⟨"u1", "Ada", "+15551234567"⟩ : Profile).phone = "+15551234567" ∧
    (post_verify ⟨some ⟨"Ada", "+15551234567"⟩, none, none⟩ ⟨[], []⟩
        ⟨some "approved", some "u1", none⟩).1.user =
        some ⟨"u1", "Ada", "+15551234567"⟩ ∧
    (post_verify ⟨some ⟨"Ada", "+15551234567"⟩, none, none⟩ ⟨[], []⟩
        ⟨some "approved", some "u1", none⟩).1.pending_user = none ∧
    (post_verify ⟨some ⟨"Ada", "+15551234567"⟩, none, none⟩ ⟨[], []⟩
        ⟨some "approved", some "u1", none⟩).2.2 = Response.redirect "/" 302 :=
  C2_signup_verify_success ⟨some ⟨"Ada", "+15551234567"⟩, none, none⟩ ⟨[], []⟩
    ⟨some "approved", some "u1", none⟩ ⟨"Ada", "+15551234567"⟩ "u1"
    rfl rfl rfl rfl

/-- C3: with a pending signin phone and an approved OTP check, when the
profiles select returns at least one row matching the phone, the session user
is set to the first matching rows id, name and phone, signin_phone is
removed and the response redirects to / with 302; with exactly one match this
is that profiles fields. -/
theorem C3_signin_verify_success
    (s : Session) (db : DB) (st : Option String) (ph : String)
    (prof : Profile) (rest : List Profile)
    (hs : s.signin_phone = some ph) (hph : ph ≠ "")
    (hv : st = some "approved")
    (hf : db.profiles.filter (fun p => p.phone == ph) = prof :: rest) :
    (post_signin_verify s db st).1.user = some ⟨prof.id, prof.name, prof.phone⟩ ∧
    (post_signin_verify s db st).1.signin_phone = none ∧
    (post_signin_verify s db st).2 = Response.redirect "/" 302 := by
  simp [post_signin_verify, hs, hph, hv, hf]

/-- C3 witness at a concrete input with a single matching profile. -/
theorem C3_signin_verify_success_witness :
    (post_signin_verify ⟨none, some "+15551234567", none⟩
        ⟨[], [⟨"u1", "Ada", "+15551234567"⟩]⟩ (some "approved")).1.user =
        some ⟨"u1", "Ada", "+15551234567"⟩ ∧
    (post_signin_verify ⟨none, some "+15551234567", none⟩
        ⟨[], [⟨"u1", "Ada", "+15551234567"⟩]⟩ (some "approved")).1.signin_phone = none ∧
    (post_signin_verify ⟨none, some "+15551234567", none⟩
        ⟨[], [⟨"u1", "Ada", "+15551234567"⟩]⟩ (some "approved")).2 =
        Response.redirect "/" 302 :=
  C3_signin_verify_success ⟨none, some "+15551234567", none⟩
    ⟨[], [⟨"u1", "Ada", "+15551234567"⟩]⟩ (some "approved") "+15551234567"
    ⟨"u1", "Ada", "+15551234567"⟩ [] rfl (by decide) rfl (by decide)

/-- C4: with a pending signin phone, an approved OTP check and no profile row
matching the phone, post_signin_verify fails with the 404 not-found error and
the session user is unchanged (not set). -/
theorem C4_signin_verify_not_found
    (s : Session) (db : DB) (st : Option String) (ph : String)
    (hs : s.signin_phone = some ph) (hph : ph ≠ "")
    (hv : st = some "approved")
    (hf : db.profiles.filter (fun p => p.phone == ph) = []) :
    (post_signin_verify s db st).2 =
        Response.error 404 "No user found with this phone number" ∧
    (post_signin_verify s db st).1.user = s.user := by
  simp [post_signin_verify, hs, hph, hv, hf]

/-- C4 witness at a concrete input with an empty profiles table. -/
theorem C4_signin_verify_not_found_witness :
    (post_signin_verify ⟨none, some "+15551234567", none⟩ ⟨[], []⟩
        (some "approved")).2 =
        Response.error 404 "No user found with this phone number" ∧
    (post_signin_verify ⟨none, some "+15551234567", none⟩ ⟨[], []⟩
        (some "approved")).1.user = none :=
  C4_signin_verify_not_found ⟨none, some "+15551234567", none⟩ ⟨[], []⟩
    (some "approved") "+15551234567" rfl (by decide) rfl rfl

/-- C5: with a pending signup and an approved OTP check, if account creation
yields no usable identifier or the profile insert reports an error, post_verify
fails with a 500 server error, the session user is unchanged (not promoted to
authenticated) and the pending_user state remains in the session. -/
theorem C5_provision_failure_no_partial_promotion
    (s : Session) (db : DB) (env : VerifyEnv) (pu : PendingUser)
    (hp : s.pending_user = some pu)
    (hv : env.check_status = some "approved")
    (hfail : env.auth_user_id = none ∨ env.profile_error ≠ none) :
    (∃ d, (post_verify s db env).2.2 = Response.error 500 d) ∧
    (post_verify s db env).1.user = s.user ∧
    (post_verify s db env).1.pending_user = some pu := by
  rcases hfail with ha | he
  · refine ⟨⟨"Error creating user in Supabase: Supabase user creation response was invalid.",
        ?_⟩, ?_, ?_⟩ <;> simp [post_verify, hp, hv, ha]
  · cases hau : env.auth_user_id with
    | none =>
      refine ⟨⟨"Error creating user in Supabase: Supabase user creation response was invalid.",
          ?_⟩, ?_, ?_⟩ <;> simp [post_verify, hp, hv, hau]
    | some uid =>
      cases hpe : env.profile_error with
      | none => exact absurd hpe he
      | some err =>
        refine ⟨⟨"Error creating user in Supabase: Failed to create user profile: " ++ err,
            ?_⟩, ?_, ?_⟩ <;> simp [post_verify, hp, hv, hau, hpe]

/-- C5 witness at a concrete input where the profile insert reports an
error. -/
theorem C5_provision_failure_no_partial_promotion_witness :
    (∃ d, (post_verify ⟨some ⟨"Ada", "+15551234567"⟩, none, none⟩ ⟨[], []⟩
        ⟨some "approved", some "u1", some "duplicate key"⟩).2.2 =
        Response.error 500 d) ∧
    (post_verify ⟨some ⟨"Ada", "+15551234567"⟩, none, none⟩ ⟨[], []⟩
        ⟨some "approved", some "u1", some "duplicate key"⟩).1.user = none ∧
    (post_verify ⟨some ⟨"Ada", "+15551234567"⟩, none, none⟩ ⟨[], []⟩
        ⟨some "approved", some "u1", some "duplicate key"⟩).1.pending_user =
        some ⟨"Ada", "+15551234567"⟩ :=
  C5_provision_failure_no_partial_promotion
    ⟨some ⟨"Ada", "+15551234567"⟩, none, none⟩ ⟨[], []⟩
    ⟨some "approved", some "u1", some "duplicate key"⟩ ⟨"Ada", "+15551234567"⟩
    rfl rfl (Or.inr (by decide))

/-- C6 counterexample: with an anonymous session and a rejected challenge
send (status failed), post_signup aborts with the delivery error yet the
session HAS entered the pending state, because pending_user is written before
the send-status check; likewise post_signin leaves signin_phone set.  This
refutes the claim that the session does not enter the pending state when the
send is not accepted. -/
theorem C6_pending_state_counterexample :
    (post_signup ⟨none, none, none⟩ "Ada" "+15551234567" (some "failed")).2 =
        Response.error 500 "Failed to send OTP" ∧
    (post_signup ⟨none, none, none⟩ "Ada" "+15551234567" (some "failed")).1.pending_user =
        some ⟨"Ada", "+15551234567"⟩ ∧
    (post_signin ⟨none, none, none⟩ "+15551234567" (some "failed")).2 =
        Response.error 500 "Error during sign-in" ∧
    (post_signin ⟨none, none, none⟩ "+15551234567" (some "failed")).1.signin_phone =
        some "+15551234567" := by
  decide

/-- C6 amended: submitting the signup or signin form writes the corresponding
pending state into the session unconditionally, before the send result is
checked; when the gateway does not accept the send, the workflow aborts with a
delivery error (500, with detail Error during sign-in on the signin path where
the blanket except clause rewraps it) but the session nevertheless holds the
pending state; when the send is accepted the handler redirects to the verify
page. -/
theorem C6_pending_state_amended
    (s : Session) (name phone phone2 : String) (st st2 : Option String)
    (h : status_accepted st = false) (h2 : status_accepted st2 = false) :
    (post_signup s name phone st).1.pending_user = some ⟨name, phone⟩ ∧
    (post_signup s name phone st).2 = Response.error 500 "Failed to send OTP" ∧
    (post_signin s phone2 st2).1.signin_phone = some phone2 ∧
    (post_signin s phone2 st2).2 = Response.error 500 "Error during sign-in" ∧
    (∀ st3, status_accepted st3 = true →
      (post_signup s name phone st3).1.pending_user = some ⟨name, phone⟩ ∧
      (post_signup s name phone st3).2 = Response.redirect "/verify" 302 ∧
      (post_signin s phone2 st3).1.signin_phone = some phone2 ∧
      (post_signin s phone2 st3).2 = Response.redirect "/signin/verify" 302) := by
  refine ⟨by simp [post_signup, h], by simp [post_signup, h],
    by simp [post_signin, h2], by simp [post_signin, h2], ?_⟩
  intro st3 h3
  exact ⟨by simp [post_signup, h3], by simp [post_signup, h3],
    by simp [post_signin, h3], by simp [post_signin, h3]⟩

/-- C6 amended witness at concrete inputs. -/
theorem C6_pending_state_amended_witness :
    (post_signup ⟨none, none, none⟩ "Ada" "+15551234567" (some "canceled")).1.pending_user =
        some ⟨"Ada", "+15551234567"⟩ ∧
    (post_signup ⟨none, none, none⟩ "Ada" "+15551234567" (some "canceled")).2 =
        Response.error 500 "Failed to send OTP" ∧
    (post_signin ⟨none, none, none⟩ "+15550000000" (some "canceled")).1.signin_phone =
        some "+15550000000" ∧
    (post_signin ⟨none, none, none⟩ "+15550000000" (some "canceled")).2 =
        Response.error 500 "Error during sign-in" ∧
    (∀ st3, status_accepted st3 = true →
      (post_signup ⟨none, none, none⟩ "Ada" "+15551234567" st3).1.pending_user =
          some ⟨"Ada", "+15551234567"⟩ ∧
      (post_signup ⟨none, none, none⟩ "Ada" "+15551234567" st3).2 =
          Response.redirect "/verify" 302 ∧
      (post_signin ⟨none, none, none⟩ "+15550000000" st3).1.signin_phone =
          some "+15550000000" ∧
      (post_signin ⟨none, none, none⟩ "+15550000000" st3).2 =
          Response.redirect "/signin/verify" 302) :=
  C6_pending_state_amended ⟨none, none, none⟩ "Ada" "+15551234567" "+15550000000"
    (some "canceled") (some "canceled") (by decide) (by decide)

/-- C7 counterexample: a POST to /verify with no pending signup in the session
does not redirect; it fails with a 400 error, and likewise POST /signin/verify
with no pending signin phone.  This refutes the claim that GET or POST on the
verification endpoints with missing pending state are both handled by
redirecting back to the originating form. -/
theorem C7_missing_precondition_counterexample :
    (post_verify ⟨none, none, none⟩ ⟨[], []⟩ ⟨some "approved", some "u1", none⟩).2.2 =
        Response.error 400 "No pending user found. Please sign up first." ∧
    (post_signin_verify ⟨none, none, none⟩ ⟨[], []⟩ (some "approved")).2 =
        Response.error 400 "No phone number found. Please sign in first." := by
  decide

/-- C7 amended: a GET on a verification endpoint with no corresponding pending
state in the session redirects back to the originating form (/signup or
/signin respectively), while a POST on the same endpoint with no pending state
fails with a 400 missing-precondition error telling the user to start over,
and in neither case is the session user set. -/
theorem C7_missing_precondition_amended
    (s : Session) (db : DB) (env : VerifyEnv) (st : Option String)
    (hp : s.pending_user = none) (hs : s.signin_phone = none) :
    (get_verify s).2 = Response.redirect "/signup" 307 ∧
    (get_signin_verify s).2 = Response.redirect "/signin" 307 ∧
    (post_verify s db env).2.2 =
        Response.error 400 "No pending user found. Please sign up first." ∧
    (post_signin_verify s db st).2 =
        Response.error 400 "No phone number found. Please sign in first." ∧
    (post_verify s db env).1.user = s.user ∧
    (post_signin_verify s db st).1.user = s.user := by
  refine ⟨by simp [get_verify, hp], by simp [get_signin_verify, hs],
    by simp [post_verify, hp], by simp [post_signin_verify, hs],
    by simp [post_verify, hp], by simp [post_signin_verify, hs]⟩

/-- C7 amended witness at a concrete anonymous session. -/
theorem C7_missing_precondition_amended_witness :
    (get_verify ⟨none, none, none⟩).2 = Response.redirect "/signup" 307 ∧
    (get_signin_verify ⟨none, none, none⟩).2 = Response.redirect "/signin" 307 ∧
    (post_verify ⟨none, none, none⟩ ⟨[], []⟩ ⟨none, none, none⟩).2.2 =
        Response.error 400 "No pending user found. Please sign up first." ∧
    (post_signin_verify ⟨none, none, none⟩ ⟨[], []⟩ none).2 =
        Response.error 400 "No phone number found. Please sign in first." ∧
    (post_verify ⟨none, none, none⟩ ⟨[], []⟩ ⟨none, none, none⟩).1.user = none ∧
    (post_signin_verify ⟨none, none, none⟩ ⟨[], []⟩ none).1.user = none :=
  C7_missing_precondition_amended ⟨none, none, none⟩ ⟨[], []⟩ ⟨none, none, none⟩ none
    rfl rfl

/-- C8: GET /signout removes the user key from the session and redirects to /,
and a subsequent GET / on the resulting session renders home with no user. -/
theorem C8_signout_clears_user (s : Session) :
    (signout s).2 = Response.redirect "/" 302 ∧
    (signout s).1.user = none ∧
    (home (signout s).1).2 = Response.renderHome none := by
  simp [signout, home]

/-- C9: mutual exclusion of session states is not enforced: a successful
POST /signin/verify removes only signin_phone and leaves a stale pending
signup coexisting with the new authenticated identity, and a successful
POST /verify removes only pending_user and leaves a stale signin phone. -/
theorem C9_stale_pending_coexists
    (s : Session) (db : DB) (env : VerifyEnv) (st : Option String)
    (ph : String) (prof : Profile) (rest : List Profile) (pu : PendingUser) (uid : String)
    (hp : s.pending_user = some pu)
    (hs : s.signin_phone = some ph) (hph : ph ≠ "")
    (hst : st = some "approved")
    (hf : db.profiles.filter (fun p => p.phone == ph) = prof :: rest)
    (hv : env.check_status = some "approved")
    (ha : env.auth_user_id = some uid)
    (he : env.profile_error = none) :
    ((post_signin_verify s db st).1.pending_user = some pu ∧
      (post_signin_verify s db st).1.user.isSome = true) ∧
    ((post_verify s db env).1.signin_phone = some ph ∧
      (post_verify s db env).1.user.isSome = true) := by
  constructor
  · constructor
    · simp [post_signin_verify, hs, hph, hst, hf, hp]
    · simp [post_signin_verify, hs, hph, hst, hf]
  · constructor
    · simp [post_verify, hp, hv, ha, he, hs]
    · simp [post_verify, hp, hv, ha, he]

/-- C9 witness: a session holding both a pending signup and a pending signin
phone, on which each successful verification leaves the other pending state
behind next to the authenticated identity. -/
theorem C9_stale_pending_coexists_witness :
    ((post_signin_verify ⟨some ⟨"Bob", "+15559999999"⟩, some "+15551234567", none⟩
        ⟨[], [⟨"u1", "Ada", "+15551234567"⟩]⟩ (some "approved")).1.pending_user =
        some ⟨"Bob", "+15559999999"⟩ ∧
      (post_signin_verify ⟨some ⟨"Bob", "+15559999999"⟩, some "+15551234567", none⟩
        ⟨[], [⟨"u1", "Ada", "+15551234567"⟩]⟩ (some "approved")).1.user.isSome = true) ∧
    ((post_verify ⟨some ⟨"Bob", "+15559999999"⟩, some "+15551234567", none⟩
        ⟨[], [⟨"u1", "Ada", "+15551234567"⟩]⟩
        ⟨some "approved", some "u2", none⟩).1.signin_phone = some "+15551234567" ∧
      (post_verify ⟨some ⟨"Bob", "+15559999999"⟩, some "+15551234567", none⟩
        ⟨[], [⟨"u1", "Ada", "+15551234567"⟩]⟩
        ⟨some "approved", some "u2", none⟩).1.user.isSome = true) :=
  C9_stale_pending_coexists
    ⟨some ⟨"Bob", "+15559999999"⟩, some "+15551234567", none⟩
    ⟨[], [⟨"u1", "Ada", "+15551234567"⟩]⟩
    ⟨some "approved", some "u2", none⟩ (some "approved") "+15551234567"
    ⟨"u1", "Ada", "+15551234567"⟩ [] ⟨"Bob", "+15559999999"⟩ "u2"
    rfl rfl (by decide) rfl (by decide) rfl rfl rfl

/-- C10: GET /signout modifies only the user key: the pending_user and
signin_phone values of any session are unchanged by signout. -/
theorem C10_signout_frame (s : Session) :
    (signout s).1.pending_user = s.pending_user ∧
    (signout s).1.signin_phone = s.signin_phone := by
  simp [signout]
